import Mathlib

/-!
Shallow embedding of the birja-in.az scraper core (src/birja_scraper.py and
src/generate_charts.py): the retry/backoff controller around the HTTP
fetcher, the concurrency limiter, the two extraction stages, the progress
store cadence, the CSV output sink, the retry pass, and the chart
generator's numeric field cleaners. Network effects, sleeps and file writes
are reified as events/outputs so that the control flow of the Python code
becomes a pure function on outcome oracles.
-/

namespace Birja

/-! ### Fetch outcomes and the retry/backoff controller

`fetch_with_retry` (birja_scraper.py lines 110-137) loops over
`range(max_retries)`.  Each attempt issues one request; a 200 returns the
body, a 404 returns `None` immediately, any other status falls through to
the next iteration with no sleep, and each caught exception (timeout,
client error, unexpected) sleeps `2 ** attempt` seconds before the next
iteration.  When the loop exhausts, the URL is appended to `failed_urls`
and `None` is returned.  The network is abstracted as an oracle from the
attempt index to its outcome, and the observable actions (requests issued,
sleeps performed, failure-log append) are recorded as an event trace. -/

inductive FetchOutcome where
  | success (body : String)
  | notFound
  | badStatus (code : Nat)
  | timeoutErr
  | clientErr
  | otherErr
deriving DecidableEq

inductive FetchEv where
  | request (attempt : Nat) (outcome : FetchOutcome)
  | sleep (seconds : Nat)
  | logFail
deriving DecidableEq

/-- Outcomes the code retries: any non-200/404 status and every caught
exception (timeout, aiohttp client error, unexpected exception). -/
def isTransient : FetchOutcome → Bool
  | .badStatus _ => true
  | .timeoutErr => true
  | .clientErr => true
  | .otherErr => true
  | _ => false

/-- Outcomes that take one of the three `except` branches, each of which
performs the `asyncio.sleep(2 ** attempt)` backoff. -/
def isErrOutcome : FetchOutcome → Bool
  | .timeoutErr => true
  | .clientErr => true
  | .otherErr => true
  | _ => false

/-- Events produced by attempt `i` when it does not terminate the loop nor
return: the request itself, plus the backoff sleep when the outcome was a
caught exception (a bad status retries with no sleep). -/
def attemptEvs (i : Nat) : FetchOutcome → List FetchEv
  | .success b => [.request i (.success b)]
  | .notFound => [.request i .notFound]
  | .badStatus c => [.request i (.badStatus c)]
  | .timeoutErr => [.request i .timeoutErr, .sleep (2 ^ i)]
  | .clientErr => [.request i .clientErr, .sleep (2 ^ i)]
  | .otherErr => [.request i .otherErr, .sleep (2 ^ i)]

/-- The retry loop of `fetch_with_retry`, indexed by the current attempt
number and the remaining budget.  Returns the result (`None`/body) and the
trace of observable events, mirroring the Python control flow branch by
branch. -/
def fetchRetryGo (oracle : Nat → FetchOutcome) : Nat → Nat → Option String × List FetchEv
  | _, 0 => (none, [.logFail])
  | attempt, r + 1 =>
    match oracle attempt with
    | .success b => (some b, [.request attempt (.success b)])
    | .notFound => (none, [.request attempt .notFound])
    | .badStatus c =>
      let rest := fetchRetryGo oracle (attempt + 1) r
      (rest.1, .request attempt (.badStatus c) :: rest.2)
    | .timeoutErr =>
      let rest := fetchRetryGo oracle (attempt + 1) r
      (rest.1, .request attempt .timeoutErr :: .sleep (2 ^ attempt) :: rest.2)
    | .clientErr =>
      let rest := fetchRetryGo oracle (attempt + 1) r
      (rest.1, .request attempt .clientErr :: .sleep (2 ^ attempt) :: rest.2)
    | .otherErr =>
      let rest := fetchRetryGo oracle (attempt + 1) r
      (rest.1, .request attempt .otherErr :: .sleep (2 ^ attempt) :: rest.2)

/-- `fetch_with_retry(url, max_retries)`: run the loop from attempt 0. -/
def fetch_with_retry (oracle : Nat → FetchOutcome) (max_retries : Nat) :
    Option String × List FetchEv :=
  fetchRetryGo oracle 0 max_retries

/-- Number of requests actually issued in a trace. -/
def reqCount (tr : List FetchEv) : Nat :=
  (tr.filter fun e => match e with | .request _ _ => true | _ => false).length

/-- The backoff sleeps of a trace, in order. -/
def sleepsIn (tr : List FetchEv) : List Nat :=
  tr.filterMap fun e => match e with | .sleep d => some d | _ => none

/-- Whether the trace appended an entry to `failed_urls`. -/
def hasLogFail (tr : List FetchEv) : Bool :=
  tr.any fun e => match e with | .logFail => true | _ => false

theorem reqCount_append (a b : List FetchEv) :
    reqCount (a ++ b) = reqCount a + reqCount b := by
  simp [reqCount, List.filter_append]

theorem sleepsIn_append (a b : List FetchEv) :
    sleepsIn (a ++ b) = sleepsIn a ++ sleepsIn b := by
  simp [sleepsIn, List.filterMap_append]

theorem reqCount_attemptEvs (i : Nat) (o : FetchOutcome) :
    reqCount (attemptEvs i o) = 1 := by
  cases o <;> rfl

theorem sleepsIn_attemptEvs (i : Nat) (o : FetchOutcome) :
    sleepsIn (attemptEvs i o) =
      (if isErrOutcome o = true then [2 ^ i] else []) := by
  cases o <;> rfl

/-- When every attempt in the window fails transiently, the loop runs to
exhaustion: the result is `none`, the trace is the concatenation of the
per-attempt events followed by the failure-log append. -/
theorem fetchRetryGo_allTransient (oracle : Nat → FetchOutcome) :
    ∀ (r a : Nat), (∀ i, a ≤ i → i < a + r → isTransient (oracle i) = true) →
    fetchRetryGo oracle a r =
      (none, ((List.range' a r).map fun i => attemptEvs i (oracle i)).flatten ++ [.logFail]) := by
  intro r
  induction r with
  | zero => intro a _; simp [fetchRetryGo, List.range']
  | succ r ih =>
    intro a h
    have ha : isTransient (oracle a) = true := h a le_rfl (by omega)
    have ih' := ih (a + 1) (fun i h1 h2 => h i (by omega) (by omega))
    cases hoa : oracle a <;> rw [hoa] at ha <;> simp [isTransient] at ha <;>
      simp [fetchRetryGo, hoa, ih', List.range'_succ, attemptEvs]

/-- Request count over an all-transient window. -/
theorem reqCount_allTransient (oracle : Nat → FetchOutcome) :
    ∀ (r a : Nat),
    reqCount (((List.range' a r).map fun i => attemptEvs i (oracle i)).flatten ++ [.logFail]) = r := by
  intro r
  induction r with
  | zero => intro a; rfl
  | succ r ih =>
    intro a
    rw [List.range'_succ]
    simp only [List.map_cons, List.flatten_cons, List.append_assoc, reqCount_append,
      reqCount_attemptEvs]
    have := ih (a + 1)
    rw [reqCount_append] at this
    omega

/-- Sleep list over an all-transient window: one backoff of `2 ^ i` for each
exception-type attempt `i`, nothing for bad-status attempts. -/
theorem sleepsIn_allTransient (oracle : Nat → FetchOutcome) :
    ∀ (r a : Nat),
    sleepsIn (((List.range' a r).map fun i => attemptEvs i (oracle i)).flatten ++ [.logFail]) =
      (List.range' a r).filterMap
        (fun i => if isErrOutcome (oracle i) = true then some (2 ^ i) else none) := by
  intro r
  induction r with
  | zero => intro a; rfl
  | succ r ih =>
    intro a
    rw [List.range'_succ]
    simp only [List.map_cons, List.flatten_cons, List.append_assoc, sleepsIn_append,
      sleepsIn_attemptEvs, List.filterMap_cons]
    rw [← sleepsIn_append, ih (a + 1)]
    by_cases h : isErrOutcome (oracle a) = true <;> simp [h]

/-- C2 (counterexample): an oracle that always answers HTTP 500 is transient
on every attempt, `fetch_with_retry` issues all 5 requests and logs the
failure, yet performs no backoff sleep at all between attempts — refuting
the claim that a wait of `base * 2^attempt` precedes each next attempt on
every transiently-failing URL. -/
theorem fetch_with_retry_badStatus_no_backoff :
    (∀ i, i < 5 → isTransient ((fun _ => FetchOutcome.badStatus 500) i) = true) ∧
    (fetch_with_retry (fun _ => FetchOutcome.badStatus 500) 5).1 = none ∧
    reqCount (fetch_with_retry (fun _ => FetchOutcome.badStatus 500) 5).2 = 5 ∧
    hasLogFail (fetch_with_retry (fun _ => FetchOutcome.badStatus 500) 5).2 = true ∧
    sleepsIn (fetch_with_retry (fun _ => FetchOutcome.badStatus 500) 5).2 = [] := by
  refine ⟨fun i _ => rfl, rfl, rfl, rfl, rfl⟩

/-- C2 (amended): on a URL whose every attempt fails transiently,
`fetch_with_retry` makes exactly `max_retries = 5` attempts, returns empty
and appends the URL to the failure log; the exponential backoff
`2 ^ attempt` is slept exactly after the exception-type attempts (timeout,
client error, unexpected error), while a non-2xx status retries with no
wait. -/
theorem fetch_with_retry_transient_exhaustion (oracle : Nat → FetchOutcome)
    (h : ∀ i, i < 5 → isTransient (oracle i) = true) :
    (fetch_with_retry oracle 5).1 = none ∧
    reqCount (fetch_with_retry oracle 5).2 = 5 ∧
    hasLogFail (fetch_with_retry oracle 5).2 = true ∧
    sleepsIn (fetch_with_retry oracle 5).2 =
      (List.range' 0 5).filterMap
        (fun i => if isErrOutcome (oracle i) = true then some (2 ^ i) else none) := by
  have hcf := fetchRetryGo_allTransient oracle 5 0 (fun i _ h2 => h i (by omega))
  unfold fetch_with_retry
  rw [hcf]
  refine ⟨rfl, reqCount_allTransient oracle 5 0, ?_, sleepsIn_allTransient oracle 5 0⟩
  simp [hasLogFail]

/-- C2 witness: an always-timing-out URL exercises the amended theorem at a
concrete input; there the backoff sleeps are `[1, 2, 4, 8, 16]`. -/
theorem fetch_with_retry_transient_exhaustion_witness :
    (fetch_with_retry (fun _ => FetchOutcome.timeoutErr) 5).1 = none ∧
    reqCount (fetch_with_retry (fun _ => FetchOutcome.timeoutErr) 5).2 = 5 ∧
    hasLogFail (fetch_with_retry (fun _ => FetchOutcome.timeoutErr) 5).2 = true ∧
    sleepsIn (fetch_with_retry (fun _ => FetchOutcome.timeoutErr) 5).2 =
      (List.range' 0 5).filterMap
        (fun i => if isErrOutcome ((fun _ => FetchOutcome.timeoutErr) i) = true
          then some (2 ^ i) else none) :=
  fetch_with_retry_transient_exhaustion (fun _ => FetchOutcome.timeoutErr)
    (fun _ _ => rfl)

/-- C3: on a URL whose first attempt answers 404, `fetch_with_retry` returns
empty after exactly one request, performs no backoff sleep, and leaves the
failure log untouched. -/
theorem fetch_with_retry_notFound_immediate (oracle : Nat → FetchOutcome)
    (h : oracle 0 = FetchOutcome.notFound) :
    fetch_with_retry oracle 5 = (none, [FetchEv.request 0 FetchOutcome.notFound]) ∧
    reqCount (fetch_with_retry oracle 5).2 = 1 ∧
    sleepsIn (fetch_with_retry oracle 5).2 = [] ∧
    hasLogFail (fetch_with_retry oracle 5).2 = false := by
  have key : fetch_with_retry oracle 5 = (none, [FetchEv.request 0 FetchOutcome.notFound]) := by
    unfold fetch_with_retry
    show fetchRetryGo oracle 0 (4 + 1) = _
    unfold fetchRetryGo
    rw [h]
  refine ⟨key, ?_, ?_, ?_⟩ <;> rw [key] <;> rfl

/-- C3 witness: the permanently-absent oracle at a concrete input. -/
theorem fetch_with_retry_notFound_immediate_witness :
    fetch_with_retry (fun _ => FetchOutcome.notFound) 5 =
      (none, [FetchEv.request 0 FetchOutcome.notFound]) ∧
    reqCount (fetch_with_retry (fun _ => FetchOutcome.notFound) 5).2 = 1 ∧
    sleepsIn (fetch_with_retry (fun _ => FetchOutcome.notFound) 5).2 = [] ∧
    hasLogFail (fetch_with_retry (fun _ => FetchOutcome.notFound) 5).2 = false :=
  fetch_with_retry_notFound_immediate (fun _ => FetchOutcome.notFound) rfl

/-- Structural facts about the retry loop for any oracle: at most the budget
of requests is issued, every request event reports the oracle's outcome for
its attempt, and every exception-type attempt that was issued is
accompanied by its `2 ^ attempt` backoff sleep. -/
theorem fetchRetryGo_spec (oracle : Nat → FetchOutcome) :
    ∀ (r a : Nat),
    reqCount (fetchRetryGo oracle a r).2 ≤ r ∧
    (∀ i o, FetchEv.request i o ∈ (fetchRetryGo oracle a r).2 → o = oracle i) ∧
    (∀ i, FetchEv.request i (oracle i) ∈ (fetchRetryGo oracle a r).2 →
      isErrOutcome (oracle i) = true → FetchEv.sleep (2 ^ i) ∈ (fetchRetryGo oracle a r).2) := by
  intro r
  induction r with
  | zero =>
    intro a
    refine ⟨by simp [fetchRetryGo, reqCount], ?_, ?_⟩
    · intro i o hmem; simp [fetchRetryGo] at hmem
    · intro i hmem; simp [fetchRetryGo] at hmem
  | succ r ih =>
    intro a
    obtain ⟨ih1, ih2, ih3⟩ := ih (a + 1)
    cases hoa : oracle a with
    | success b =>
      refine ⟨by simp [fetchRetryGo, hoa, reqCount], ?_, ?_⟩
      · intro i o hmem
        simp [fetchRetryGo, hoa] at hmem
        rw [hmem.1, hmem.2, hoa]
      · intro i hmem herr
        simp [fetchRetryGo, hoa] at hmem
        rw [hmem.1, hoa] at herr
        simp [isErrOutcome] at herr
    | notFound =>
      refine ⟨by simp [fetchRetryGo, hoa, reqCount], ?_, ?_⟩
      · intro i o hmem
        simp [fetchRetryGo, hoa] at hmem
        rw [hmem.1, hmem.2, hoa]
      · intro i hmem herr
        simp [fetchRetryGo, hoa] at hmem
        rw [hmem.1, hoa] at herr
        simp [isErrOutcome] at herr
    | badStatus c =>
      refine ⟨?_, ?_, ?_⟩
      · simpa [fetchRetryGo, hoa, reqCount] using ih1
      · intro i o hmem
        simp only [fetchRetryGo, hoa, List.mem_cons] at hmem
        rcases hmem with h1 | h2
        · injection h1 with hi ho
          subst hi
          rw [ho, hoa]
        · exact ih2 i o h2
      · intro i hmem herr
        simp only [fetchRetryGo, hoa, List.mem_cons] at hmem ⊢
        rcases hmem with h1 | h2
        · exfalso
          injection h1 with hi ho
          subst hi
          rw [hoa] at herr
          simp [isErrOutcome] at herr
        · exact Or.inr (ih3 i h2 herr)
    | timeoutErr =>
      refine ⟨?_, ?_, ?_⟩
      · simpa [fetchRetryGo, hoa, reqCount] using ih1
      · intro i o hmem
        simp only [fetchRetryGo, hoa, List.mem_cons] at hmem
        rcases hmem with h1 | h1 | h2
        · injection h1 with hi ho
          subst hi
          rw [ho, hoa]
        · exact absurd h1 (by simp)
        · exact ih2 i o h2
      · intro i hmem herr
        simp only [fetchRetryGo, hoa, List.mem_cons] at hmem ⊢
        rcases hmem with h1 | h1 | h2
        · injection h1 with hi ho
          subst hi
          exact Or.inr (Or.inl rfl)
        · exact absurd h1 (by simp)
        · exact Or.inr (Or.inr (ih3 i h2 herr))
    | clientErr =>
      refine ⟨?_, ?_, ?_⟩
      · simpa [fetchRetryGo, hoa, reqCount] using ih1
      · intro i o hmem
        simp only [fetchRetryGo, hoa, List.mem_cons] at hmem
        rcases hmem with h1 | h1 | h2
        · injection h1 with hi ho
          subst hi
          rw [ho, hoa]
        · exact absurd h1 (by simp)
        · exact ih2 i o h2
      · intro i hmem herr
        simp only [fetchRetryGo, hoa, List.mem_cons] at hmem ⊢
        rcases hmem with h1 | h1 | h2
        · injection h1 with hi ho
          subst hi
          exact Or.inr (Or.inl rfl)
        · exact absurd h1 (by simp)
        · exact Or.inr (Or.inr (ih3 i h2 herr))
    | otherErr =>
      refine ⟨?_, ?_, ?_⟩
      · simpa [fetchRetryGo, hoa, reqCount] using ih1
      · intro i o hmem
        simp only [fetchRetryGo, hoa, List.mem_cons] at hmem
        rcases hmem with h1 | h1 | h2
        · injection h1 with hi ho
          subst hi
          rw [ho, hoa]
        · exact absurd h1 (by simp)
        · exact ih2 i o h2
      · intro i hmem herr
        simp only [fetchRetryGo, hoa, List.mem_cons] at hmem ⊢
        rcases hmem with h1 | h1 | h2
        · injection h1 with hi ho
          subst hi
          exact Or.inr (Or.inl rfl)
        · exact absurd h1 (by simp)
        · exact Or.inr (Or.inr (ih3 i h2 herr))

/-- C10: `fetch_with_retry` is total on every oracle — its only outcomes are
a body or empty — every exception-type attempt it issues is followed by its
`2 ^ attempt` backoff sleep in the trace, the attempt budget bounds the
requests issued, and every issued request reflects the oracle's outcome
(no exception escapes the loop). -/
theorem fetch_with_retry_no_exception_escape (oracle : Nat → FetchOutcome) (n : Nat) :
    reqCount (fetch_with_retry oracle n).2 ≤ n ∧
    (∀ i o, FetchEv.request i o ∈ (fetch_with_retry oracle n).2 → o = oracle i) ∧
    (∀ i, FetchEv.request i (oracle i) ∈ (fetch_with_retry oracle n).2 →
      isErrOutcome (oracle i) = true → FetchEv.sleep (2 ^ i) ∈ (fetch_with_retry oracle n).2) ∧
    ((fetch_with_retry oracle n).1 = none ∨ ∃ b, (fetch_with_retry oracle n).1 = some b) := by
  obtain ⟨h1, h2, h3⟩ := fetchRetryGo_spec oracle n 0
  refine ⟨h1, h2, h3, ?_⟩
  cases hres : (fetch_with_retry oracle n).1 with
  | none => exact Or.inl rfl
  | some b => exact Or.inr ⟨b, rfl⟩

/-- C10 witness: the structural facts at a concrete always-timing-out oracle
with budget 2. -/
theorem fetch_with_retry_no_exception_escape_witness :
    reqCount (fetch_with_retry (fun _ => FetchOutcome.timeoutErr) 2).2 ≤ 2 ∧
    (∀ i o, FetchEv.request i o ∈ (fetch_with_retry (fun _ => FetchOutcome.timeoutErr) 2).2 →
      o = (fun _ => FetchOutcome.timeoutErr) i) ∧
    (∀ i, FetchEv.request i ((fun _ => FetchOutcome.timeoutErr) i) ∈
        (fetch_with_retry (fun _ => FetchOutcome.timeoutErr) 2).2 →
      isErrOutcome ((fun _ => FetchOutcome.timeoutErr) i) = true →
      FetchEv.sleep (2 ^ i) ∈ (fetch_with_retry (fun _ => FetchOutcome.timeoutErr) 2).2) ∧
    ((fetch_with_retry (fun _ => FetchOutcome.timeoutErr) 2).1 = none ∨
      ∃ b, (fetch_with_retry (fun _ => FetchOutcome.timeoutErr) 2).1 = some b) :=
  fetch_with_retry_no_exception_escape (fun _ => FetchOutcome.timeoutErr) 2

/-! ### String primitives used by the extraction code

These mirror the Python string operations the scraper relies on:
`re.search(r'\d+', s).group()` (leftmost maximal digit run), `str.strip()`,
`str.split('\n')[0]`, `str.replace(' ', '')`, `str.startswith`, and the
`'pat' in s` substring test. -/

def natOfDigits (l : List Char) : Nat :=
  l.foldl (fun n c => 10 * n + (c.toNat - 48)) 0

def firstDigitRunAux : List Char → Option (List Char)
  | [] => none
  | c :: cs =>
    if c.isDigit then some (c :: cs.takeWhile Char.isDigit)
    else firstDigitRunAux cs

/-- Leftmost maximal digit run of a string: `re.search(r'\d+', s)`,
returning `none` when the string holds no digit (where the Python
`.group()` on a failed search raises, which the callers catch). -/
def firstDigitRun (s : String) : Option String :=
  (firstDigitRunAux s.data).map (fun l => ⟨l⟩)

def isPyWs (c : Char) : Bool :=
  c == ' ' || c == '\n' || c == '\t' || c == '\r'

/-- Python `str.strip()`. -/
def pyStrip (s : String) : String :=
  ⟨((s.data.dropWhile isPyWs).reverse.dropWhile isPyWs).reverse⟩

/-- Python `s.split('\n')[0]`. -/
def firstLine (s : String) : String :=
  ⟨s.data.takeWhile (fun c => !(c == '\n'))⟩

/-- Python `s.replace(' ', '')`. -/
def removeSpaces (s : String) : String :=
  ⟨s.data.filter (fun c => !(c == ' '))⟩

def listStartsWithChars : List Char → List Char → Bool
  | _, [] => true
  | [], _ :: _ => false
  | a :: as, b :: bs => a == b && listStartsWithChars as bs

def containsSubAux (pat : List Char) : List Char → Bool
  | [] => pat.isEmpty
  | c :: cs => listStartsWithChars (c :: cs) pat || containsSubAux pat cs

/-- Python `pat in s` substring test. -/
def containsSub (s pat : String) : Bool :=
  containsSubAux pat.data s.data

/-! ### Records as ordered string dictionaries

The scraper builds each record as a Python `dict` of string fields; we model
it as an association list with Python's assignment semantics (overwrite in
place, else append). -/

def lookupField : List (String × String) → String → Option String
  | [], _ => none
  | p :: r, k => if p.1 == k then some p.2 else lookupField r k

def setField (r : List (String × String)) (k v : String) : List (String × String) :=
  if r.any (fun p => p.1 == k) then
    r.map (fun p => if p.1 == k then (k, v) else p)
  else r ++ [(k, v)]

/-! ### Summary extraction from a listing card

`extract_listing_info` (birja_scraper.py lines 139-198).  A listing card is
abstracted to the query results the code performs on the parsed markup: the
text of the `span` matching `Elan №` (when present), the `h2 > a` anchor
with its optional `itemprop=name` span and `href`, and the optional
price/currency/location/category/short-description/date elements. -/

structure TitleLink where
  nameSpan : Option String
  text : String
  href : Option String
deriving DecidableEq

structure ListingCard where
  elanText : Option String
  titleLink : Option TitleLink
  price : Option String
  currency : Option String
  location : Option String
  categorySpan : Option String
  shortDesc : Option String
  datePosted : Option String
deriving DecidableEq

/-- `extract_listing_info(listing_html)`: returns `None` when the `Elan №`
marker is absent, when the marker text holds no digits (the `.group()`
`AttributeError` is caught by the surrounding `except`), or when the
extracted id is already in `scraped_ids`; otherwise builds the partial
record field by field in source order. -/
def extract_listing_info (scraped : List String) (base : String) (card : ListingCard) :
    Option (List (String × String)) :=
  match card.elanText with
  | none => none
  | some t =>
    match firstDigitRun t with
    | none => none
    | some elanId =>
      if elanId ∈ scraped then none
      else
        let d := [("elan_id", elanId)]
        let d := match card.titleLink with
          | some tl =>
            let d := setField d "title"
              (match tl.nameSpan with
               | some ns => pyStrip ns
               | none => pyStrip tl.text)
            setField d "url" (base ++ tl.href.getD "")
          | none => d
        let d := match card.price with
          | some p => setField d "price" (removeSpaces (pyStrip p))
          | none => d
        let d := match card.currency with
          | some c => setField d "currency" (pyStrip c)
          | none => d
        let d := match card.location with
          | some l => setField d "location" (pyStrip l)
          | none => d
        let d := match card.categorySpan with
          | some c => setField d "category" (pyStrip c)
          | none => d
        let d := match card.shortDesc with
          | some sd => setField d "short_description" (pyStrip sd)
          | none => d
        let d := match card.datePosted with
          | some dp => setField d "date_posted" (pyStrip dp)
          | none => d
        some d

/-- C1: summary extraction returns `none` for a card whose `Elan №` marker
is absent, and returns `none` for a card whose extracted identifier is
already in the scraped-ids set, regardless of every other field of the
card (so no further extraction or detail fetch happens for duplicates). -/
theorem extract_listing_info_skips (scraped : List String) (base : String)
    (card : ListingCard) :
    (card.elanText = none → extract_listing_info scraped base card = none) ∧
    (∀ t ident, card.elanText = some t → firstDigitRun t = some ident →
      ident ∈ scraped → extract_listing_info scraped base card = none) := by
  constructor
  · intro h
    simp [extract_listing_info, h]
  · intro t ident ht hid hmem
    simp [extract_listing_info, ht, hid, hmem]

/-- C1 witness: a concrete duplicate card (id 777 already scraped) and a
concrete markerless card, both rejected. -/
theorem extract_listing_info_skips_witness :
    extract_listing_info ["777"] "https://birja-in.az"
      { elanText := some "Elan № 777", titleLink := some ⟨some "Ev", "Ev", some "/elan/777.html"⟩,
        price := some "100 000", currency := some "azn", location := some "Bakı",
        categorySpan := some "Yeni tikili", shortDesc := some "3 otaqlı",
        datePosted := some "01 Yanvar 2026" } = none ∧
    extract_listing_info [] "https://birja-in.az"
      { elanText := none, titleLink := none, price := none, currency := none,
        location := none, categorySpan := none, shortDesc := none,
        datePosted := none } = none := by
  constructor
  · exact (extract_listing_info_skips ["777"] "https://birja-in.az" _).2 "Elan № 777" "777"
      rfl (by decide) (by decide)
  · exact (extract_listing_info_skips [] "https://birja-in.az" _).1 rfl

/-! ### Detail extraction from a detail page

`extract_detail_info` (birja_scraper.py lines 200-275).  The detail page is
abstracted to the query results the code performs: the optional
`td[itemprop=description]` text, the `td` cell texts of every `tr`, the
optional advertiser span, contact-name cell, the cell following the phone
label cell, the view-count cell, and the `href`s of the gallery anchors. -/

structure DetailPage where
  descriptionTd : Option String
  tableRows : List (List String)
  advertiserSpan : Option String
  contactNameTd : Option String
  phoneTd : Option String
  viewTd : Option String
  imageHrefs : List (Option String)
deriving DecidableEq

/-- The `properties` dict: every row with exactly two cells whose stripped
key and value are both non-empty, later rows overwriting earlier keys. -/
def buildProps (rows : List (List String)) : List (String × String) :=
  rows.foldl
    (fun acc cells =>
      match cells with
      | [k0, v0] =>
        let k := pyStrip k0
        let v := pyStrip v0
        if !(k == "") && !(v == "") then setField acc k v else acc
      | _ => acc) []

def jsonStrLit (s : String) : String := "\"" ++ s ++ "\""

/-- `json.dumps(properties, ensure_ascii=False)` with default separators. -/
def jsonOfProps (props : List (String × String)) : String :=
  "\x7b" ++
    String.intercalate ", " (props.map fun p => jsonStrLit p.1 ++ ": " ++ jsonStrLit p.2) ++
    "\x7d"

def resolveImg (base href : String) : String :=
  if listStartsWithChars href.data "http".data then href else base ++ href

/-- The pipe-joined image list: present non-empty `href`s, relative ones
resolved against the base URL. -/
def imagesOf (base : String) (hrefs : List (Option String)) : String :=
  String.intercalate "|"
    (((hrefs.filterMap id).filter (fun h => !(h == ""))).map (resolveImg base))

/-- `extract_detail_info(html, basic_info)`: enriches the partial record
with the attribute table (fixed label-to-field mapping, always assigned
with `''` default), the optional free-text fields, the images, the raw
properties as JSON, and the harvest timestamp.  The whole body sits in a
`try`/`except` that returns `basic_info` unchanged on any internal fault,
modelled by the `fault` flag. -/
def extract_detail_info (base : String) (page : DetailPage)
    (basic : List (String × String)) (now : String) (fault : Bool) :
    List (String × String) :=
  if fault then basic
  else
    let props := buildProps page.tableRows
    let d := basic
    let d := match page.descriptionTd with
      | some t => setField d "description" (pyStrip t)
      | none => d
    let d := setField d "region" ((lookupField props "Şəhər/ərazi").getD "")
    let d := setField d "elan_type" ((lookupField props "Elan növü").getD "")
    let d := setField d "property_type" ((lookupField props "Əmlak növü").getD "")
    let d := setField d "rental_period" ((lookupField props "Kirayə müddəti").getD "")
    let d := setField d "room_count" ((lookupField props "Otaq sayı").getD "")
    let d := setField d "floor" ((lookupField props "Mərtəbə").getD "")
    let d := setField d "total_floors" ((lookupField props "Mərtəbəli bina").getD "")
    let d := setField d "area_sqm" ((lookupField props "Sahəsi (m²)").getD "")
    let d := setField d "repair_status" ((lookupField props "Təmiri").getD "")
    let d := setField d "land_area_sot" ((lookupField props "Ümumi-sahə (sot)").getD "")
    let d := setField d "house_area_sqm" ((lookupField props "Evin-sahəsi (m²)").getD "")
    let d := match page.advertiserSpan with
      | some t => setField d "advertiser_type" (pyStrip t)
      | none => d
    let d := match page.contactNameTd with
      | some t => setField d "contact_name" (pyStrip (firstLine (pyStrip t)))
      | none => d
    let d := match page.phoneTd with
      | some t => setField d "phone" (pyStrip t)
      | none => d
    let d := match page.viewTd with
      | some t =>
        match firstDigitRun t with
        | some n => setField d "view_count" n
        | none => d
      | none => d
    let d := setField d "images" (imagesOf base page.imageHrefs)
    let d := setField d "all_properties" (jsonOfProps props)
    let d := setField d "scraped_at" now
    d

/-- Minimal detail markup fixture: only the single attribute-table row
`Otaq sayı → 3`, nothing else on the page. -/
def minimalDetailPage : DetailPage :=
  { descriptionTd := none, tableRows := [["Otaq sayı", "3"]], advertiserSpan := none,
    contactNameTd := none, phoneTd := none, viewTd := none, imageHrefs := [] }

/-- C6: on the minimal fixture containing only the identifier and the row
`Otaq sayı → 3`, detail extraction yields `room_count = "3"`, keeps the
identifier, leaves every other mapped field empty and every optional field
absent; and on any internal extraction fault it returns the partial record
unchanged instead of raising. -/
theorem extract_detail_minimal_roundtrip :
    (lookupField (extract_detail_info "https://birja-in.az" minimalDetailPage
        [("elan_id", "12345")] "2026-10-12T00:00:00" false) "room_count" = some "3") ∧
    (lookupField (extract_detail_info "https://birja-in.az" minimalDetailPage
        [("elan_id", "12345")] "2026-10-12T00:00:00" false) "elan_id" = some "12345") ∧
    (∀ k, k ∈ ["region", "elan_type", "property_type", "rental_period", "floor",
        "total_floors", "area_sqm", "repair_status", "land_area_sot", "house_area_sqm",
        "images"] →
      lookupField (extract_detail_info "https://birja-in.az" minimalDetailPage
        [("elan_id", "12345")] "2026-10-12T00:00:00" false) k = some "") ∧
    (∀ k, k ∈ ["description", "advertiser_type", "contact_name", "phone", "view_count"] →
      lookupField (extract_detail_info "https://birja-in.az" minimalDetailPage
        [("elan_id", "12345")] "2026-10-12T00:00:00" false) k = none) ∧
    (∀ (base : String) (page : DetailPage) (basic : List (String × String)) (now : String),
      extract_detail_info base page basic now true = basic) := by
  refine ⟨by decide, by decide, by decide, by decide, fun _ _ _ _ => rfl⟩

/-- C6 witness: the mapped-but-absent field `region` comes out empty and
the optional field `phone` comes out absent on the minimal fixture. -/
theorem extract_detail_minimal_roundtrip_witness :
    lookupField (extract_detail_info "https://birja-in.az" minimalDetailPage
      [("elan_id", "12345")] "2026-10-12T00:00:00" false) "region" = some "" ∧
    lookupField (extract_detail_info "https://birja-in.az" minimalDetailPage
      [("elan_id", "12345")] "2026-10-12T00:00:00" false) "phone" = none :=
  ⟨extract_detail_minimal_roundtrip.2.2.1 "region" (by decide),
   extract_detail_minimal_roundtrip.2.2.2.1 "phone" (by decide)⟩

/-! ### The CSV output sink

`write_to_csv` (birja_scraper.py lines 277-297): appends one row under the
fixed 29-column header via `csv.DictWriter(..., extrasaction='ignore')`
(extra record fields dropped, missing fields written as the `restval`
default `''`), writing the header first exactly when the output file does
not yet exist.  Any exception in the write routes the record to a
timestamped JSON-lines fallback file instead; the `fault` flag models such
an exception. -/

def csv_headers : List String :=
  ["elan_id", "title", "url", "price", "currency", "location", "region",
   "metro", "category", "subcategory", "elan_type", "property_type",
   "rental_period", "room_count", "floor", "total_floors", "area_sqm",
   "repair_status", "land_area_sot", "house_area_sqm", "advertiser_type",
   "description", "contact_name", "phone", "date_posted", "view_count",
   "images", "all_properties", "scraped_at"]

structure CsvWriteResult where
  headerWritten : Bool
  rowWritten : Option (List String)
  backupLine : Option (List (String × String))
deriving DecidableEq

def write_to_csv (fileExists : Bool) (record : List (String × String)) (fault : Bool) :
    CsvWriteResult :=
  if fault then { headerWritten := false, rowWritten := none, backupLine := some record }
  else
    { headerWritten := !fileExists,
      rowWritten := some (csv_headers.map fun h => (lookupField record h).getD ""),
      backupLine := none }

theorem lookupField_append_single (r : List (String × String)) (k v h : String)
    (hne : ¬ h = k) : lookupField (r ++ [(k, v)]) h = lookupField r h := by
  induction r with
  | nil =>
    have hk : (k == h) = false := by
      simp only [beq_eq_false_iff_ne, ne_eq]
      exact fun hk => hne hk.symm
    simp [lookupField, hk]
  | cons a as ih =>
    by_cases ha : a.1 == h <;> simp [lookupField, ha, ih]

/-- C4: the sink writes the header exactly when the file does not yet
exist; a field outside the fixed column list never affects the written row;
a record missing every column is written as all-empty cells; and on a write
fault the record goes verbatim to the JSON-lines fallback, never dropped. -/
theorem write_to_csv_contract (fileExists : Bool) (record : List (String × String))
    (k v : String) :
    ((write_to_csv fileExists record false).headerWritten = !fileExists) ∧
    ((write_to_csv fileExists record true).headerWritten = false) ∧
    ((write_to_csv fileExists record true).backupLine = some record) ∧
    (k ∉ csv_headers →
      (write_to_csv fileExists (record ++ [(k, v)]) false).rowWritten =
        (write_to_csv fileExists record false).rowWritten) ∧
    ((∀ h, h ∈ csv_headers → lookupField record h = none) →
      (write_to_csv fileExists record false).rowWritten =
        some (csv_headers.map fun _ => "")) := by
  refine ⟨rfl, rfl, rfl, ?_, ?_⟩
  · intro hk
    show some (csv_headers.map fun h => (lookupField (record ++ [(k, v)]) h).getD "") =
      some (csv_headers.map fun h => (lookupField record h).getD "")
    congr 1
    apply List.map_congr_left
    intro h hh
    rw [lookupField_append_single record k v h]
    intro heq
    exact hk (heq ▸ hh)
  · intro hnone
    show some (csv_headers.map fun h => (lookupField record h).getD "") =
      some (csv_headers.map fun _ => "")
    congr 1
    apply List.map_congr_left
    intro h hh
    rw [hnone h hh]
    rfl

/-- C4 witness: concrete instances — header written on a fresh file, a
faulted write routes the record to the fallback, the unknown field `bogus`
does not change the row, and the empty record becomes an all-empty row. -/
theorem write_to_csv_contract_witness :
    (write_to_csv false [("elan_id", "1"), ("bogus", "x")] false).headerWritten = true ∧
    (write_to_csv false [("elan_id", "1"), ("bogus", "x")] true).backupLine =
      some [("elan_id", "1"), ("bogus", "x")] ∧
    (write_to_csv false ([("elan_id", "1")] ++ [("bogus", "x")]) false).rowWritten =
      (write_to_csv false [("elan_id", "1")] false).rowWritten ∧
    (write_to_csv true [] false).rowWritten = some (csv_headers.map fun _ => "") := by
  refine ⟨?_, ?_, ?_, ?_⟩
  · exact (write_to_csv_contract false [("elan_id", "1"), ("bogus", "x")] "k" "v").1
  · exact (write_to_csv_contract false [("elan_id", "1"), ("bogus", "x")] "k" "v").2.2.1
  · exact (write_to_csv_contract false [("elan_id", "1")] "bogus" "x").2.2.2.1 (by decide)
  · exact (write_to_csv_contract true [] "k" "v").2.2.2.2 (fun h _ => rfl)

/-! ### Progress-store cadence

`scrape_listing` (birja_scraper.py lines 299-330): after a record is
written to the sink, the identifier is added to `scraped_ids` and
`save_progress()` runs whenever `len(self.scraped_ids) % 10 == 0`.  The
state holds the identifier set (as an insertion-ordered duplicate-free
list) and the log of persisted snapshots. -/

structure ProgState where
  ids : List String
  persistLog : List (List String)
deriving DecidableEq

/-- The identifier set after `self.scraped_ids.add(elan_id)`. -/
def recordIds (s : ProgState) (ident : String) : List String :=
  if ident ∈ s.ids then s.ids else s.ids ++ [ident]

/-- One successful record commit: `self.scraped_ids.add(elan_id)` followed
by the `len(self.scraped_ids) % 10 == 0` cadence check. -/
def recordSuccess (s : ProgState) (ident : String) : ProgState :=
  if (recordIds s ident).length % 10 = 0 then
    { ids := recordIds s ident, persistLog := s.persistLog ++ [recordIds s ident] }
  else { ids := recordIds s ident, persistLog := s.persistLog }

/-- A run's successful commits in order. -/
def runSuccesses : ProgState → List String → ProgState
  | s, [] => s
  | s, ident :: rest => runSuccesses (recordSuccess s ident) rest

/-- C7 (counterexample): resuming from a loaded progress state of one
identifier and committing ten fresh records, the only persist fires at the
ninth success (set size 10); no persist fires on the tenth success, and
the last persisted snapshot is not the current identifier set. -/
theorem recordSuccess_offset_cadence :
    (runSuccesses { ids := ["z"], persistLog := [] }
        ["a", "b", "c", "d", "e", "f", "g", "h", "i", "j"]).ids =
      ["z", "a", "b", "c", "d", "e", "f", "g", "h", "i", "j"] ∧
    (runSuccesses { ids := ["z"], persistLog := [] }
        ["a", "b", "c", "d", "e", "f", "g", "h", "i", "j"]).persistLog =
      [["z", "a", "b", "c", "d", "e", "f", "g", "h", "i"]] ∧
    ¬ ((runSuccesses { ids := ["z"], persistLog := [] }
        ["a", "b", "c", "d", "e", "f", "g", "h", "i", "j"]).persistLog.getLast? =
      some (runSuccesses { ids := ["z"], persistLog := [] }
        ["a", "b", "c", "d", "e", "f", "g", "h", "i", "j"]).ids) := by
  refine ⟨by decide, by decide, by decide⟩

/-- C7 (amended): committing a fresh identifier grows the set by one and
persists the progress file exactly when the resulting set size is divisible
by 10 — so a run that starts from an empty progress state persists on every
10th success, while a resumed run's cadence is offset by the loaded set's
size. -/
theorem recordSuccess_cadence (s : ProgState) (ident : String) (h : ident ∉ s.ids) :
    (recordSuccess s ident).ids = s.ids ++ [ident] ∧
    ((s.ids.length + 1) % 10 = 0 →
      (recordSuccess s ident).persistLog = s.persistLog ++ [s.ids ++ [ident]]) ∧
    ((s.ids.length + 1) % 10 ≠ 0 →
      (recordSuccess s ident).persistLog = s.persistLog) := by
  have hmem : recordIds s ident = s.ids ++ [ident] := if_neg h
  unfold recordSuccess
  simp only [hmem, List.length_append, List.length_singleton]
  refine ⟨?_, ?_, ?_⟩
  · split <;> rfl
  · intro h10
    rw [if_pos h10]
  · intro h10
    rw [if_neg h10]

/-- C7 witness: the ninth fresh commit onto a nine-identifier state
persists the ten-element set. -/
theorem recordSuccess_cadence_witness :
    (recordSuccess { ids := ["a", "b", "c", "d", "e", "f", "g", "h", "i"], persistLog := [] }
        "j").ids = ["a", "b", "c", "d", "e", "f", "g", "h", "i"] ++ ["j"] ∧
    (recordSuccess { ids := ["a", "b", "c", "d", "e", "f", "g", "h", "i"], persistLog := [] }
        "j").persistLog = [] ++ [["a", "b", "c", "d", "e", "f", "g", "h", "i"] ++ ["j"]] := by
  obtain ⟨h1, h2, _⟩ := recordSuccess_cadence
    { ids := ["a", "b", "c", "d", "e", "f", "g", "h", "i"], persistLog := [] } "j" (by decide)
  exact ⟨h1, h2 (by decide)⟩

/-! ### The terminal retry pass

`retry_failed` (birja_scraper.py lines 378-411): loads the persisted
failed-URL list, returns early when it is empty, otherwise resets the
in-memory `failed_urls` list and calls `fetch_with_retry` once per URL.
The fetched body is bound to `html` and then discarded — no extraction and
no CSV write happens on this path.  The network is abstracted as an oracle
per URL and attempt. -/

structure RetryResult where
  fetched : List String
  written : List (List (String × String))
  failedAfter : List String
deriving DecidableEq

def retry_failed (persisted : List String) (oracle : String → Nat → FetchOutcome) :
    RetryResult :=
  if persisted.isEmpty then { fetched := [], written := [], failedAfter := [] }
  else
    { fetched := persisted,
      written := [],
      failedAfter :=
        persisted.filter fun u => hasLogFail (fetch_with_retry (oracle u) 5).2 }

/-- C5 (counterexample): a retry pass over one persisted URL whose fetch
succeeds re-fetches it, yet writes no record to the sink — the fetched body
is discarded without extraction. -/
theorem retry_failed_discards_body :
    (fetch_with_retry ((fun _ _ => FetchOutcome.success "<html>detail</html>") "u") 5).1 =
      some "<html>detail</html>" ∧
    (retry_failed ["u"] (fun _ _ => FetchOutcome.success "<html>detail</html>")).fetched =
      ["u"] ∧
    (retry_failed ["u"] (fun _ _ => FetchOutcome.success "<html>detail</html>")).written =
      [] := by
  refine ⟨rfl, rfl, rfl⟩

/-- C5 (amended): a non-empty retry pass re-fetches each persisted URL
exactly once through `fetch_with_retry` after resetting the failure list —
the URLs still failing afterward are exactly the re-exhausted ones — but it
writes no record to the sink: the fetched bodies never reach the
extraction pipeline. -/
theorem retry_failed_contract (persisted : List String)
    (oracle : String → Nat → FetchOutcome) (h : persisted ≠ []) :
    (retry_failed persisted oracle).fetched = persisted ∧
    (retry_failed persisted oracle).written = [] ∧
    (∀ u, u ∈ (retry_failed persisted oracle).failedAfter ↔
      u ∈ persisted ∧ hasLogFail (fetch_with_retry (oracle u) 5).2 = true) := by
  have hne : persisted.isEmpty = false := by
    cases persisted with
    | nil => exact absurd rfl h
    | cons a l => rfl
  unfold retry_failed
  rw [hne]
  simp only [Bool.false_eq_true, if_false]
  refine ⟨trivial, trivial, ?_⟩
  intro u
  simp [List.mem_filter]

/-- C5 witness: a single exhausting URL is re-fetched once and lands back
in the failure list while nothing is written. -/
theorem retry_failed_contract_witness :
    (retry_failed ["u"] (fun _ _ => FetchOutcome.timeoutErr)).fetched = ["u"] ∧
    (retry_failed ["u"] (fun _ _ => FetchOutcome.timeoutErr)).written = [] ∧
    (∀ u, u ∈ (retry_failed ["u"] (fun _ _ => FetchOutcome.timeoutErr)).failedAfter ↔
      u ∈ ["u"] ∧
        hasLogFail (fetch_with_retry ((fun _ _ => FetchOutcome.timeoutErr) u) 5).2 = true) :=
  retry_failed_contract ["u"] (fun _ _ => FetchOutcome.timeoutErr) (by decide)

/-! ### Numeric field cleaners of the chart generator

`extract_rooms` (generate_charts.py lines 47-58) and `clean_area`
(lines 60-69).  `extract_rooms` maps studio listings to 0, otherwise takes
the first integer match and discards values `>= 20`; `clean_area` replaces
`,` by `.`, takes the first `\d+\.?\d*` match as a number (modelled exactly
in `ℚ`, where the Python float is exact for these digit strings), and
discards values outside the open interval `(10, 1000)`. -/

/-- Leftmost match of `\d+\.?\d*`: the integer digits and the (possibly
empty) fraction digits. -/
def firstDecAux : List Char → Option (List Char × List Char)
  | [] => none
  | c :: cs =>
    if c.isDigit then
      let d1 := (c :: cs).takeWhile Char.isDigit
      match (c :: cs).dropWhile Char.isDigit with
      | '.' :: r2 => some (d1, r2.takeWhile Char.isDigit)
      | _ => some (d1, [])
    else firstDecAux cs

/-- The numeric value `d1.d2` of a decimal match. -/
def ratOfParts (d1 d2 : List Char) : ℚ :=
  (natOfDigits d1 : ℚ) + (natOfDigits d2 : ℚ) / (10 : ℚ) ^ d2.length

/-- Python `str.replace(',', '.')`. -/
def commaToDot (s : String) : String :=
  ⟨s.data.map (fun c => if c == ',' then '.' else c)⟩

/-- `extract_rooms(room_str)`: studio is 0 rooms, the first integer run is
the room count, values of 20 or more are dropped as outliers. -/
def extract_rooms (s : String) : Option Nat :=
  if containsSub s "Studio" || containsSub s "studio" then some 0
  else
    match firstDigitRun s with
    | some ds => if natOfDigits ds.data < 20 then some (natOfDigits ds.data) else none
    | none => none

/-- `clean_area(area_str)`: comma becomes decimal point, the first decimal
match is the area, values outside `(10, 1000)` are dropped as outliers. -/
def clean_area (s : String) : Option ℚ :=
  match firstDecAux (commaToDot s).data with
  | some (d1, d2) =>
    if 10 < ratOfParts d1 d2 ∧ ratOfParts d1 d2 < 1000 then some (ratOfParts d1 d2)
    else none
  | none => none

/-- C8: a non-studio room string whose first parsed number is 20 or more
yields no room count; an area string whose parsed value falls outside the
open interval `(10, 1000)` yields no area; and the comma is honoured as a
decimal separator (`"45,5"` parses to `91 / 2`). -/
theorem numeric_field_bounds (s : String) :
    (∀ ds, containsSub s "Studio" = false → containsSub s "studio" = false →
      firstDigitRun s = some ds → 20 ≤ natOfDigits ds.data → extract_rooms s = none) ∧
    (∀ d1 d2, firstDecAux (commaToDot s).data = some (d1, d2) →
      (ratOfParts d1 d2 ≤ 10 ∨ 1000 ≤ ratOfParts d1 d2) → clean_area s = none) ∧
    clean_area "45,5" = some (91 / 2) := by
  refine ⟨?_, ?_, ?_⟩
  · intro ds h1 h2 hds h20
    simp only [extract_rooms, h1, h2, Bool.or_self, Bool.false_eq_true, if_false, hds]
    rw [if_neg (by omega)]
  · intro d1 d2 hdec hout
    have hcond : ¬ (10 < ratOfParts d1 d2 ∧ ratOfParts d1 d2 < 1000) := by
      rcases hout with h | h
      · exact fun hc => absurd hc.1 (not_lt.mpr h)
      · exact fun hc => absurd hc.2 (not_lt.mpr h)
    simp only [clean_area, hdec]
    rw [if_neg hcond]
  · have hparse : firstDecAux (commaToDot "45,5").data = some (['4', '5'], ['5']) := by
      decide
    have hv : ratOfParts ['4', '5'] ['5'] = 91 / 2 := by
      have h1 : natOfDigits ['4', '5'] = 45 := rfl
      have h2 : natOfDigits ['5'] = 5 := rfl
      rw [ratOfParts, h1, h2]
      norm_num
    simp only [clean_area, hparse, hv]
    norm_num

/-- C8 witness: `"25 otaq"` (25 rooms, an outlier) and `"3500 m"` (area
outlier) are both rejected by the theorem at concrete inputs. -/
theorem numeric_field_bounds_witness :
    extract_rooms "25 otaq" = none ∧ clean_area "3500 m" = none := by
  constructor
  · exact (numeric_field_bounds "25 otaq").1 "25" (by decide) (by decide) (by decide)
      (by decide)
  · refine (numeric_field_bounds "3500 m").2.1 ['3', '5', '0', '0'] [] (by decide)
      (Or.inr ?_)
    have hn : natOfDigits ['3', '5', '0', '0'] = 3500 := rfl
    have h0 : natOfDigits ([] : List Char) = 0 := rfl
    rw [ratOfParts, hn, h0]
    norm_num

/-! ### The concurrency limiter

`BirjaScraper.__init__` (birja_scraper.py lines 28-31) creates one
`asyncio.Semaphore(max_concurrent)` (default capacity 5) shared by all
fetches of the run, and every attempt of `fetch_with_retry` issues its
`session.get` inside `async with self.semaphore` (lines 114-115), so the
number of in-flight requests equals the number of held permits.  The
semaphore is modelled as its standard counting-permit transition system:
`acquire` succeeds only below capacity (otherwise the caller suspends and
the step is not taken), `release` returns a permit. -/

def max_concurrent_default : Nat := 5

inductive SemOp where
  | acquire
  | release
deriving DecidableEq

def semStep (c : Nat) (held : Nat) : SemOp → Option Nat
  | .acquire => if held < c then some (held + 1) else none
  | .release => if held = 0 then none else some (held - 1)

/-- The sequence of held-permit counts along a schedule of
acquire/release steps, `none` when the schedule is not executable. -/
def semStates (c : Nat) : Nat → List SemOp → Option (List Nat)
  | held, [] => some [held]
  | held, op :: ops =>
    match semStep c held op with
    | some h2 => (semStates c h2 ops).map (fun l => held :: l)
    | none => none

theorem semStates_bounded (c : Nat) :
    ∀ (ops : List SemOp) (held : Nat) (states : List Nat), held ≤ c →
      semStates c held ops = some states → ∀ s, s ∈ states → s ≤ c := by
  intro ops
  induction ops with
  | nil =>
    intro held states hh hrun s hs
    unfold semStates at hrun
    cases hrun
    rw [List.mem_singleton.mp hs]
    exact hh
  | cons op rest ih =>
    intro held states hh hrun s hs
    unfold semStates at hrun
    cases op with
    | acquire =>
      by_cases hlt : held < c
      · have hstep : semStep c held SemOp.acquire = some (held + 1) := by
          simp [semStep, hlt]
        simp only [hstep] at hrun
        cases hsub : semStates c (held + 1) rest with
        | none => rw [hsub] at hrun; simp at hrun
        | some l =>
          rw [hsub] at hrun
          simp only [Option.map_some'] at hrun
          cases hrun
          rcases List.mem_cons.mp hs with rfl | hsl
          · exact hh
          · exact ih (held + 1) l (by omega) hsub s hsl
      · have hstep : semStep c held SemOp.acquire = none := by
          simp [semStep, hlt]
        simp only [hstep] at hrun
        exact absurd hrun (by simp)
    | release =>
      by_cases h0 : held = 0
      · have hstep : semStep c held SemOp.release = none := by
          simp [semStep, h0]
        simp only [hstep] at hrun
        exact absurd hrun (by simp)
      · have hstep : semStep c held SemOp.release = some (held - 1) := by
          simp [semStep, h0]
        simp only [hstep] at hrun
        cases hsub : semStates c (held - 1) rest with
        | none => rw [hsub] at hrun; simp at hrun
        | some l =>
          rw [hsub] at hrun
          simp only [Option.map_some'] at hrun
          cases hrun
          rcases List.mem_cons.mp hs with rfl | hsl
          · exact hh
          · exact ih (held - 1) l (by omega) hsub s hsl

/-- C9: along every executable schedule of permit acquisitions and releases
starting from zero held permits, the held count — and hence the number of
in-flight fetch requests, each issued while holding one permit — never
exceeds the configured capacity `c`. -/
theorem semaphore_capacity_bound (c : Nat) (ops : List SemOp) (states : List Nat)
    (hrun : semStates c 0 ops = some states) : ∀ s, s ∈ states → s ≤ c :=
  semStates_bounded c ops 0 states (Nat.zero_le c) hrun

/-- C9 witness: seven tasks contending for the default capacity of 5 —
the held count tops out at 5 and never exceeds it. -/
theorem semaphore_capacity_bound_witness :
    semStates max_concurrent_default 0
      [SemOp.acquire, SemOp.acquire, SemOp.acquire, SemOp.acquire, SemOp.acquire,
       SemOp.release, SemOp.acquire, SemOp.release, SemOp.acquire, SemOp.release,
       SemOp.release, SemOp.release, SemOp.release, SemOp.release] =
      some [0, 1, 2, 3, 4, 5, 4, 5, 4, 5, 4, 3, 2, 1, 0] ∧
    (∀ s, s ∈ [0, 1, 2, 3, 4, 5, 4, 5, 4, 5, 4, 3, 2, 1, 0] →
      s ≤ max_concurrent_default) := by
  constructor
  · decide
  · exact semaphore_capacity_bound max_concurrent_default
      [SemOp.acquire, SemOp.acquire, SemOp.acquire, SemOp.acquire, SemOp.acquire,
       SemOp.release, SemOp.acquire, SemOp.release, SemOp.acquire, SemOp.release,
       SemOp.release, SemOp.release, SemOp.release, SemOp.release]
      [0, 1, 2, 3, 4, 5, 4, 5, 4, 5, 4, 3, 2, 1, 0] (by decide)

end Birja
